import Mathlib

/-!
Shallow embedding of the SG DMA character-device transfer-control core
(`char_sgdma_read_write`, `ioctl_do_perf_test`, `ioctl_do_addrmode_set`,
`ioctl_do_submit_transfer`, `char_sgdma_open`, `char_sgdma_close` and the
`sgdma_fops` dispatch table).

Modelling conventions:
- The per-engine atomic flag word `engine->flags` is modelled as two
  booleans `busyBit` (XENGINE_BUSY_BIT) and `openBit` (XENGINE_OPEN_BIT);
  `test_and_set_bit` becomes "branch on the boolean, set it"; `clear_bit`
  becomes "set it to false".
- User pointers are natural numbers; an `Option Nat` is used where the
  value NULL (absent) is significant (`transfer_params.buf`).
- The user/kernel copy primitives are oracles supplied as inputs:
  `get_user` / `__get_user` return `0` or `-EFAULT`, so a read of a value
  of type `A` is an `Option A` (`none` = fault, in which case the call
  site sees `-EFAULT`); `__put_user` success is a `Bool`;
  `copy_from_user` / `copy_to_user` return the number of bytes NOT copied,
  a NON-NEGATIVE count (`Nat`), `0` meaning full success — this sign
  matters and is modelled faithfully.  The structure sizes involved are
  far below `INT_MAX`, so assigning the count to a C `int` keeps it
  non-negative.
- `access_assert` (user-region accessibility validation) is an oracle
  `Int` result; the code only tests its sign.
- The external submission collaborators `xdma2_xfer_submit` and
  `xdma2_performance_submit` are out of scope per the design: each is an
  oracle `Int` result (`ssize_t`), and the performance submit may also
  rewrite the engine's performance record.  They do not touch the busy or
  open bits: those are manipulated only by this core.
- Results record, besides the C return value and the post-state, whether
  the external submit routine was invoked (`submitCalled`) and what value,
  if any, was successfully written back to the caller's `length` field
  (`writtenLength`), so that theorems can speak about these effects.
-/

/-- `-EBUSY` magnitude: engine already busy / already open. -/
def EBUSY : Int := 16

/-- `-EACCES` magnitude: access mode does not match engine direction. -/
def EACCES : Int := 13

/-- `-EFAULT` magnitude: user-memory access fault from `get_user` / `__put_user`. -/
def EFAULT : Int := 14

/-- `-ENOTSUPP` magnitude: transfer mode does not match engine direction. -/
def ENOTSUPP : Int := 524

/-- `-ENOTTY` magnitude: unknown ioctl command code. -/
def ENOTTY : Int := 25

/-- DMA direction of an engine, fixed at creation (`engine->dir`). -/
inductive dma_data_direction where
  | DMA_TO_DEVICE : dma_data_direction
  | DMA_FROM_DEVICE : dma_data_direction
deriving DecidableEq, Repr

/-- Transfer mode field of an `xdma2_transfer_request` (`enum xdma2_transfer_mode`). -/
inductive xdma2_transfer_mode where
  | XDMA_H2C : xdma2_transfer_mode
  | XDMA_C2H : xdma2_transfer_mode
deriving DecidableEq, Repr

/-- The access-mode bits of `filp->f_flags & O_ACCMODE`. -/
inductive AccMode where
  | O_RDONLY : AccMode
  | O_WRONLY : AccMode
  | O_RDWR : AccMode
deriving DecidableEq, Repr

/-- Staged transfer parameters (`engine->transfer_params`):
user buffer pointer (`none` = NULL), length, device-side address. -/
structure TransferParams where
  buf : Option Nat
  length : Nat
  ep_addr : Int
deriving DecidableEq, Repr

/-- Per-engine state (`struct xdma2_engine`, the fields this core touches).
`xdma2_perf` is the opaque performance-test record, identified by a tag. -/
structure Engine where
  dir : dma_data_direction
  streaming : Bool
  non_incr_addr : Bool
  addr_align : Nat
  busyBit : Bool
  openBit : Bool
  transfer_params : TransferParams
  xdma2_perf : Nat
  eop_flush : Bool
deriving DecidableEq, Repr

/-- The slice of `struct file` this core reads and writes:
access-mode bits, the `O_TRUNC` flag, and the `FMODE_READ`/`FMODE_WRITE` mode bits. -/
structure Filp where
  accMode : AccMode
  truncFlag : Bool
  fmodeRead : Bool
  fmodeWrite : Bool
deriving DecidableEq, Repr

/-- Result of `char_sgdma_read_write`: the `ssize_t` return value, the
engine post-state, and the (possibly advanced) `*pos` cursor. -/
structure RwOut where
  ret : Int
  engine : Engine
  pos : Int
deriving DecidableEq, Repr

/-- Result of `ioctl_do_perf_test`: return value, engine post-state, and
whether `xdma2_performance_submit` was invoked. -/
structure PerfOut where
  ret : Int
  engine : Engine
  submitCalled : Bool
deriving DecidableEq, Repr

/-- Result of `ioctl_do_submit_transfer`: return value, engine post-state,
whether `xdma2_xfer_submit` was invoked, and the value successfully written
back into the caller's `length` field (`none` if no successful write-back). -/
structure SubmitOut where
  ret : Int
  engine : Engine
  submitCalled : Bool
  writtenLength : Option Int
deriving DecidableEq, Repr

/-- Oracle outcomes of the external calls made by `ioctl_do_perf_test`:
the `copy_from_user` uncopied count, the performance record landing in the
engine after that copy attempt, the `xdma2_performance_submit` result, the
record it leaves behind, and the `copy_to_user` uncopied count. -/
structure PerfEnv where
  fromUncopied : Nat
  copiedPerf : Nat
  perfSubmitRes : Int
  perfAfterSubmit : Nat
  toUncopied : Nat
deriving DecidableEq, Repr

/-- Oracle outcomes of the external calls made by `ioctl_do_submit_transfer`,
in call order: `access_assert` on the request region, `__get_user` of `mode`,
of `buf` (the read pointer may itself be NULL), of `length`, `access_assert`
on the staged buffer region, `__get_user` of `axi_address`, the
`xdma2_xfer_submit` result, and whether `__put_user` into `length` succeeds. -/
structure SubmitEnv where
  accessReq : Int
  modeRead : Option xdma2_transfer_mode
  bufRead : Option (Option Nat)
  lenRead : Option Nat
  accessBuf : Int
  addrRead : Option Int
  submitRes : Int
  putOk : Bool
deriving DecidableEq, Repr

/-- Modelled from the spec: `engine_addrmode_set` is declared outside this
core (its definition is not among the provided sources); per the spec,
SetAddressMode "reads a boolean from the caller and assigns it to
`nonIncrementingAddress`", so the helper assigns its argument to
`non_incr_addr`. -/
def engine_addrmode_set (engine : Engine) (set : Bool) : Engine :=
  { engine with non_incr_addr := set }

/-- `char_sgdma_read_write`: guard with `test_and_set_bit(XENGINE_BUSY_BIT)`,
stage `transfer_params` (buffer, count, and `*pos` as the device address for
non-streaming engines), call `xdma2_xfer_submit`, advance `*pos` by the
result when the engine is non-streaming, not in non-incrementing-address
mode and the result is positive, then `clear_bit` and return the result. -/
def char_sgdma_read_write (engine : Engine) (buf : Option Nat) (count : Nat)
    (pos : Int) (submitRes : Int) : RwOut :=
  if engine.busyBit then
    { ret := -EBUSY, engine := engine, pos := pos }
  else
    let e1 : Engine :=
      { engine with
        busyBit := true
        transfer_params :=
          { buf := buf
            length := count
            ep_addr :=
              if engine.streaming then engine.transfer_params.ep_addr else pos } }
    let rv : Int := submitRes
    let pos2 : Int :=
      if ¬e1.streaming ∧ ¬e1.non_incr_addr ∧ 0 < rv then pos + rv else pos
    { ret := rv, engine := { e1 with busyBit := false }, pos := pos2 }

/-- `char_sgdma_read`: delegates verbatim to `char_sgdma_read_write`. -/
def char_sgdma_read (engine : Engine) (buf : Option Nat) (count : Nat)
    (pos : Int) (submitRes : Int) : RwOut :=
  char_sgdma_read_write engine buf count pos submitRes

/-- `ioctl_do_perf_test`: `test_and_set_bit` busy guard; `copy_from_user`
of the performance configuration with a sign test `rv < 0` (the uncopied
count is non-negative, so the test never fires); `xdma2_performance_submit`;
`copy_to_user` of the result, whose `rv < 0` test likewise only logs; the
`exit` label clears the busy bit and returns `rv`. -/
def ioctl_do_perf_test (engine : Engine) (env : PerfEnv) : PerfOut :=
  if engine.busyBit then
    { ret := -EBUSY, engine := engine, submitCalled := false }
  else
    let e1 : Engine := { engine with busyBit := true }
    let rv : Int := (env.fromUncopied : Int)
    let e2 : Engine := { e1 with xdma2_perf := env.copiedPerf }
    if rv < 0 then
      { ret := rv, engine := { e2 with busyBit := false }, submitCalled := false }
    else
      let rv : Int := env.perfSubmitRes
      let e3 : Engine := { e2 with xdma2_perf := env.perfAfterSubmit }
      if rv < 0 then
        { ret := rv, engine := { e3 with busyBit := false }, submitCalled := true }
      else
        let rv : Int := (env.toUncopied : Int)
        { ret := rv, engine := { e3 with busyBit := false }, submitCalled := true }

/-- `ioctl_do_addrmode_set`: `get_user` of the boolean FIRST (propagating
`-EFAULT` on failure before any busy-bit access), then the
`test_and_set_bit` busy guard, then `engine_addrmode_set`, `clear_bit`,
return `0`. -/
def ioctl_do_addrmode_set (engine : Engine) (getSet : Option Bool) : Int × Engine :=
  match getSet with
  | none => (-EFAULT, engine)
  | some set =>
    if engine.busyBit then
      (-EBUSY, engine)
    else
      let e1 : Engine := { engine with busyBit := true }
      let e2 : Engine := engine_addrmode_set e1 set
      (0, { e2 with busyBit := false })

/-- `ioctl_do_submit_transfer`: `access_assert` on the request region;
`__get_user` of `mode`; the mode/direction match check (failing with
`-ENOTSUPP` before the busy bit is touched); `test_and_set_bit` busy guard;
`__get_user` of `buf` then `length`, staged into `transfer_params` as read;
`access_assert` on the staged buffer region, clearing `buf` to NULL and
`length` to `0` on failure; `__get_user` of `axi_address` for non-streaming
engines; `xdma2_xfer_submit`; write-back of the byte count (or `0` on a
negative result) into the request's `length` via `__put_user`; the `exit`
label clears the busy bit and returns `rv`. -/
def ioctl_do_submit_transfer (engine : Engine) (env : SubmitEnv) : SubmitOut :=
  let exitWith : Engine → Int → Bool → Option Int → SubmitOut := fun e r c w =>
    { ret := r, engine := { e with busyBit := false }, submitCalled := c, writtenLength := w }
  if env.accessReq < 0 then
    { ret := env.accessReq, engine := engine, submitCalled := false, writtenLength := none }
  else
    match env.modeRead with
    | none =>
      { ret := -EFAULT, engine := engine, submitCalled := false, writtenLength := none }
    | some transfer_mode =>
      if ¬((transfer_mode = .XDMA_H2C ∧ engine.dir = .DMA_TO_DEVICE) ∨
           (transfer_mode = .XDMA_C2H ∧ engine.dir = .DMA_FROM_DEVICE)) then
        { ret := -ENOTSUPP, engine := engine, submitCalled := false, writtenLength := none }
      else if engine.busyBit then
        { ret := -EBUSY, engine := engine, submitCalled := false, writtenLength := none }
      else
        let e1 : Engine := { engine with busyBit := true }
        match env.bufRead with
        | none => exitWith e1 (-EFAULT) false none
        | some bufv =>
          let e2 : Engine :=
            { e1 with transfer_params := { e1.transfer_params with buf := bufv } }
          match env.lenRead with
          | none => exitWith e2 (-EFAULT) false none
          | some lenv =>
            let e3 : Engine :=
              { e2 with transfer_params := { e2.transfer_params with length := lenv } }
            if env.accessBuf < 0 then
              let e4 : Engine :=
                { e3 with transfer_params :=
                  { e3.transfer_params with buf := none, length := 0 } }
              exitWith e4 env.accessBuf false none
            else
              let afterAddr : Option Engine :=
                if e3.streaming then some e3
                else
                  match env.addrRead with
                  | none => none
                  | some a =>
                    some { e3 with transfer_params :=
                      { e3.transfer_params with ep_addr := a } }
              match afterAddr with
              | none => exitWith e3 (-EFAULT) false none
              | some e4 =>
                let transfer_res : Int := env.submitRes
                if transfer_res < 0 then
                  if env.putOk then
                    exitWith e4 transfer_res true (some 0)
                  else
                    exitWith e4 (-EFAULT) true none
                else
                  if env.putOk then
                    exitWith e4 0 true (some transfer_res)
                  else
                    exitWith e4 (-EFAULT) true none

/-- `char_sgdma_open`: `test_and_set_bit(XENGINE_OPEN_BIT)` guard failing
with `-EBUSY`; access-mode check against the engine direction (`O_WRONLY`
required for `DMA_TO_DEVICE`, `O_RDONLY` for `DMA_FROM_DEVICE`), failing
with `-EACCES`; the matching `FMODE_*` bit is cleared; streaming engines
derive `eop_flush` from `O_TRUNC`, non-streaming engines run
`generic_file_open` (oracle result) and set the address mode from
`O_TRUNC`; the `not_open` label clears the open bit when the return value
is negative. -/
def char_sgdma_open (engine : Engine) (filp : Filp) (genericOpenRes : Int) :
    Int × Engine × Filp :=
  if engine.openBit then
    (-EBUSY, engine, filp)
  else
    let e1 : Engine := { engine with openBit := true }
    if e1.dir = .DMA_TO_DEVICE then
      if filp.accMode ≠ .O_WRONLY then
        (-EACCES, { e1 with openBit := false }, filp)
      else
        let f1 : Filp := { filp with fmodeRead := false }
        if e1.streaming then
          (0, { e1 with eop_flush := f1.truncFlag }, f1)
        else if genericOpenRes < 0 then
          (genericOpenRes, { e1 with openBit := false }, f1)
        else
          (genericOpenRes, engine_addrmode_set e1 f1.truncFlag, f1)
    else
      if filp.accMode ≠ .O_RDONLY then
        (-EACCES, { e1 with openBit := false }, filp)
      else
        let f1 : Filp := { filp with fmodeWrite := false }
        if e1.streaming then
          (0, { e1 with eop_flush := f1.truncFlag }, f1)
        else if genericOpenRes < 0 then
          (genericOpenRes, { e1 with openBit := false }, f1)
        else
          (genericOpenRes, engine_addrmode_set e1 f1.truncFlag, f1)

/-- `char_sgdma_close`: `xcdev_check` sanity validation (oracle result,
negative on failure), then `clear_bit(XENGINE_OPEN_BIT)` and return `0`. -/
def char_sgdma_close (engine : Engine) (checkRes : Int) : Int × Engine :=
  if checkRes < 0 then
    (checkRes, engine)
  else
    (0, { engine with openBit := false })

/-- The function-pointer slots of `struct file_operations sgdma_fops` that
this core populates with its own handlers (`.open` is rendered `fop_open`
since `open` is reserved in Lean). -/
structure SgdmaFileOperations where
  fop_open : Engine → Filp → Int → Int × Engine × Filp
  release : Engine → Int → Int × Engine
  write : Engine → Option Nat → Nat → Int → Int → RwOut
  read : Engine → Option Nat → Nat → Int → Int → RwOut

/-- `sgdma_fops`: `.open = char_sgdma_open`, `.release = char_sgdma_close`,
`.write = char_sgdma_read_write`, `.read = char_sgdma_read`. -/
def sgdma_fops : SgdmaFileOperations :=
  { fop_open := char_sgdma_open
    release := char_sgdma_close
    write := char_sgdma_read_write
    read := char_sgdma_read }

/-! ### Concrete inputs used by witnesses and counterexamples -/

/-- A free (not busy, not open) non-streaming HostToDevice engine. -/
def engC1 : Engine :=
  { dir := .DMA_TO_DEVICE, streaming := false, non_incr_addr := false,
    addr_align := 8, busyBit := false, openBit := false,
    transfer_params := { buf := none, length := 0, ep_addr := 0 },
    xdma2_perf := 0, eop_flush := false }

/-- An all-success submit-transfer oracle for a HostToDevice request. -/
def envC1sub : SubmitEnv :=
  { accessReq := 0, modeRead := some .XDMA_H2C, bufRead := some (some 4096),
    lenRead := some 64, accessBuf := 0, addrRead := some 256,
    submitRes := 64, putOk := true }

/-- An all-success performance-test oracle. -/
def envC1perf : PerfEnv :=
  { fromUncopied := 0, copiedPerf := 1, perfSubmitRes := 0,
    perfAfterSubmit := 2, toUncopied := 0 }

/-! ### Claims -/

/-- Claim C1: every operation that acquires the engine's busy bit
(byte-stream read/write, RunPerformanceTest, SetAddressMode,
SubmitTransfer) leaves the busy bit false on return, on every outcome of
the external oracles — no exit path leaks it. -/
theorem busy_released_on_all_paths (engine : Engine) (h : engine.busyBit = false) :
    (∀ (buf : Option Nat) (count : Nat) (pos submitRes : Int),
      (char_sgdma_read_write engine buf count pos submitRes).engine.busyBit = false) ∧
    (∀ env : PerfEnv, (ioctl_do_perf_test engine env).engine.busyBit = false) ∧
    (∀ getSet : Option Bool, (ioctl_do_addrmode_set engine getSet).2.busyBit = false) ∧
    (∀ env : SubmitEnv, (ioctl_do_submit_transfer engine env).engine.busyBit = false) := by
  refine ⟨?_, ?_, ?_, ?_⟩
  · intro buf count pos submitRes
    simp [char_sgdma_read_write, h]
  · intro env
    simp only [ioctl_do_perf_test]
    repeat' split
    all_goals first | exact h | rfl
  · intro getSet
    cases getSet <;> simp [ioctl_do_addrmode_set, h, engine_addrmode_set]
  · intro env
    simp only [ioctl_do_submit_transfer]
    repeat' split
    all_goals first | exact h | rfl

/-- Witness for C1 at a concrete free engine and concrete oracles. -/
theorem busy_released_on_all_paths_witness :
    (char_sgdma_read_write engC1 (some 4096) 8 0 8).engine.busyBit = false ∧
    (ioctl_do_perf_test engC1 envC1perf).engine.busyBit = false ∧
    (ioctl_do_addrmode_set engC1 (some true)).2.busyBit = false ∧
    (ioctl_do_submit_transfer engC1 envC1sub).engine.busyBit = false := by
  have h := busy_released_on_all_paths engC1 rfl
  exact ⟨h.1 (some 4096) 8 0 8, h.2.1 envC1perf, h.2.2.1 (some true), h.2.2.2 envC1sub⟩

/-- A free non-streaming HostToDevice engine for the C2 failing input. -/
def engC2 : Engine :=
  { dir := .DMA_TO_DEVICE, streaming := false, non_incr_addr := false,
    addr_align := 8, busyBit := false, openBit := false,
    transfer_params := { buf := none, length := 0, ep_addr := 0 },
    xdma2_perf := 0, eop_flush := false }

/-- C2 failing input: `copy_from_user` of the performance configuration
fails, leaving 4 bytes uncopied (its return value, a non-negative uncopied
count); the external calls afterwards succeed. -/
def envC2 : PerfEnv :=
  { fromUncopied := 4, copiedPerf := 1, perfSubmitRes := 0,
    perfAfterSubmit := 2, toUncopied := 0 }

/-- Claim C2: evaluation of `ioctl_do_perf_test` at the failing input.
`copy_from_user` reports failure via a POSITIVE uncopied count, but the
code tests `rv < 0`, which never fires; so on a failed configuration copy
the operation still invokes `xdma2_performance_submit` with the partially
copied configuration and returns `0` instead of propagating a fault.  The
busy bit is still released. -/
theorem perf_test_copy_fault_still_submits :
    (ioctl_do_perf_test engC2 envC2).submitCalled = true ∧
    (ioctl_do_perf_test engC2 envC2).ret = 0 ∧
    ¬(ioctl_do_perf_test engC2 envC2).ret < 0 ∧
    (ioctl_do_perf_test engC2 envC2).engine.busyBit = false := by decide

/-- A busy non-streaming HostToDevice engine for the C3 counterexample. -/
def engC3 : Engine :=
  { dir := .DMA_TO_DEVICE, streaming := false, non_incr_addr := false,
    addr_align := 8, busyBit := true, openBit := false,
    transfer_params := { buf := none, length := 0, ep_addr := 0 },
    xdma2_perf := 0, eop_flush := false }

/-- Claim C3 counterexample: on an engine whose busy bit is already held,
SetAddressMode with a faulty boolean pointer (`get_user` faults) returns
`-EFAULT`, not `-EBUSY`: the claim that the Busy check precedes the read
from the caller is false — `get_user` runs first. -/
theorem addrmode_set_busy_counterexample :
    (ioctl_do_addrmode_set engC3 none).1 = -EFAULT ∧
    ¬(ioctl_do_addrmode_set engC3 none).1 = -EBUSY := by decide

/-- Claim C3 (amended): SetAddressMode reads the boolean from the caller
FIRST and propagates the fault if that read fails, even when the engine is
busy; only when the read succeeds does it check the busy bit, failing with
Busy if held; otherwise it acquires busy, assigns the value to
`non_incr_addr`, releases busy and returns success. -/
theorem addrmode_set_read_then_busy (engine : Engine) (getSet : Option Bool) :
    (getSet = none → ioctl_do_addrmode_set engine getSet = (-EFAULT, engine)) ∧
    (∀ v : Bool, getSet = some v → engine.busyBit = true →
      ioctl_do_addrmode_set engine getSet = (-EBUSY, engine)) ∧
    (∀ v : Bool, getSet = some v → engine.busyBit = false →
      ioctl_do_addrmode_set engine getSet = (0, { engine with non_incr_addr := v })) := by
  refine ⟨?_, ?_, ?_⟩
  · intro hn
    subst hn
    rfl
  · intro v hv hb
    subst hv
    simp [ioctl_do_addrmode_set, hb]
  · intro v hv hb
    subst hv
    cases engine
    simp_all [ioctl_do_addrmode_set, engine_addrmode_set]

/-- Witness for the amended C3 at a concrete free engine. -/
theorem addrmode_set_read_then_busy_witness :
    ioctl_do_addrmode_set engC2 (some true) = (0, { engC2 with non_incr_addr := true }) :=
  (addrmode_set_read_then_busy engC2 (some true)).2.2 true rfl rfl

/-- Claim C10: the byte-stream read and write entry points installed in
`sgdma_fops` invoke the identical underlying routine
(`char_sgdma_read` delegates to `char_sgdma_read_write`), so for every
input their behavior coincides exactly. -/
theorem fops_read_write_identical (engine : Engine) (buf : Option Nat)
    (count : Nat) (pos : Int) (submitRes : Int) :
    sgdma_fops.read engine buf count pos submitRes =
      sgdma_fops.write engine buf count pos submitRes := rfl

/-- Claim C4: a SubmitTransfer request whose mode does not match the
engine's fixed direction (H2C mode on a C2H engine or vice versa) fails
with `-ENOTSUPP`, the engine state (in particular the busy bit) is left
entirely untouched, and the submission routine is never invoked — the
mode check precedes the busy-bit acquisition. -/
theorem submit_mode_mismatch_unsupported (engine : Engine) (env : SubmitEnv)
    (m : xdma2_transfer_mode)
    (hacc : 0 ≤ env.accessReq) (hmode : env.modeRead = some m)
    (hmm : (m = .XDMA_H2C ∧ engine.dir = .DMA_FROM_DEVICE) ∨
           (m = .XDMA_C2H ∧ engine.dir = .DMA_TO_DEVICE)) :
    ioctl_do_submit_transfer engine env =
      { ret := -ENOTSUPP, engine := engine, submitCalled := false,
        writtenLength := none } := by
  have h1 : ¬env.accessReq < 0 := by omega
  rcases hmm with ⟨hm, hd⟩ | ⟨hm, hd⟩ <;> subst hm <;>
    simp [ioctl_do_submit_transfer, h1, hmode, hd]

/-- Witness for C4: a DeviceToHost-mode request against a concrete free
HostToDevice engine. -/
theorem submit_mode_mismatch_unsupported_witness :
    ioctl_do_submit_transfer engC2
      { accessReq := 0, modeRead := some .XDMA_C2H, bufRead := some (some 4096),
        lenRead := some 64, accessBuf := 0, addrRead := some 256,
        submitRes := 64, putOk := true } =
      { ret := -ENOTSUPP, engine := engC2, submitCalled := false,
        writtenLength := none } :=
  submit_mode_mismatch_unsupported engC2 _ .XDMA_C2H (by decide) rfl
    (Or.inr ⟨rfl, rfl⟩)

/-- Claim C5: when the staged buffer/length region fails the accessibility
re-validation, SubmitTransfer returns that boundary fault, and afterwards
the staged `transfer_params` hold `buf = none` (NULL) and `length = 0`,
the busy bit is released, and the submission routine was never invoked. -/
theorem submit_buffer_fault_clears_params (engine : Engine) (env : SubmitEnv)
    (m : xdma2_transfer_mode) (b : Option Nat) (l : Nat)
    (hacc : 0 ≤ env.accessReq) (hmode : env.modeRead = some m)
    (hmatch : (m = .XDMA_H2C ∧ engine.dir = .DMA_TO_DEVICE) ∨
              (m = .XDMA_C2H ∧ engine.dir = .DMA_FROM_DEVICE))
    (hbusy : engine.busyBit = false)
    (hbuf : env.bufRead = some b) (hlen : env.lenRead = some l)
    (hab : env.accessBuf < 0) :
    (ioctl_do_submit_transfer engine env).ret = env.accessBuf ∧
    (ioctl_do_submit_transfer engine env).engine.transfer_params.buf = none ∧
    (ioctl_do_submit_transfer engine env).engine.transfer_params.length = 0 ∧
    (ioctl_do_submit_transfer engine env).engine.busyBit = false ∧
    (ioctl_do_submit_transfer engine env).submitCalled = false := by
  have h1 : ¬env.accessReq < 0 := by omega
  rcases hmatch with ⟨hm, hd⟩ | ⟨hm, hd⟩ <;> subst hm <;>
    simp [ioctl_do_submit_transfer, h1, hmode, hd, hbusy, hbuf, hlen, hab]

/-- Witness for C5: a well-formed H2C request whose buffer region fails
re-validation with fault `-14`. -/
theorem submit_buffer_fault_clears_params_witness :
    ((ioctl_do_submit_transfer engC2
        { accessReq := 0, modeRead := some .XDMA_H2C, bufRead := some (some 4096),
          lenRead := some 64, accessBuf := -14, addrRead := some 256,
          submitRes := 64, putOk := true }).ret = -14 ∧
      (ioctl_do_submit_transfer engC2
        { accessReq := 0, modeRead := some .XDMA_H2C, bufRead := some (some 4096),
          lenRead := some 64, accessBuf := -14, addrRead := some 256,
          submitRes := 64, putOk := true }).engine.transfer_params.buf = none) ∧
    (ioctl_do_submit_transfer engC2
        { accessReq := 0, modeRead := some .XDMA_H2C, bufRead := some (some 4096),
          lenRead := some 64, accessBuf := -14, addrRead := some 256,
          submitRes := 64, putOk := true }).engine.transfer_params.length = 0 := by
  have h := submit_buffer_fault_clears_params engC2
    { accessReq := 0, modeRead := some .XDMA_H2C, bufRead := some (some 4096),
      lenRead := some 64, accessBuf := -14, addrRead := some 256,
      submitRes := 64, putOk := true }
    .XDMA_H2C (some 4096) 64 (by decide) rfl (Or.inl ⟨rfl, rfl⟩) rfl rfl rfl
    (by decide)
  exact ⟨⟨h.1, h.2.1⟩, h.2.2.1⟩

/-- Claim C9: for a SubmitTransfer call that reaches the submission gate
(all validations passed, busy acquired) and whose write-back `__put_user`
succeeds: a non-negative submission byte count is written into the
request's `length` field and the call returns `0`; a negative submission
result causes `0` to be written into `length` and the negative result to
be returned; in both cases the busy bit is released. -/
theorem submit_writeback_result (engine : Engine) (env : SubmitEnv)
    (m : xdma2_transfer_mode) (b : Option Nat) (l : Nat)
    (hacc : 0 ≤ env.accessReq) (hmode : env.modeRead = some m)
    (hmatch : (m = .XDMA_H2C ∧ engine.dir = .DMA_TO_DEVICE) ∨
              (m = .XDMA_C2H ∧ engine.dir = .DMA_FROM_DEVICE))
    (hbusy : engine.busyBit = false)
    (hbuf : env.bufRead = some b) (hlen : env.lenRead = some l)
    (hab : 0 ≤ env.accessBuf)
    (haddr : engine.streaming = true ∨ env.addrRead.isSome = true)
    (hput : env.putOk = true) :
    (0 ≤ env.submitRes →
      (ioctl_do_submit_transfer engine env).ret = 0 ∧
      (ioctl_do_submit_transfer engine env).writtenLength = some env.submitRes) ∧
    (env.submitRes < 0 →
      (ioctl_do_submit_transfer engine env).ret = env.submitRes ∧
      (ioctl_do_submit_transfer engine env).writtenLength = some 0) ∧
    (ioctl_do_submit_transfer engine env).engine.busyBit = false := by
  have h1 : ¬env.accessReq < 0 := by omega
  have h2 : ¬env.accessBuf < 0 := by omega
  by_cases hsr : env.submitRes < 0
  · have h3 : ¬(0 ≤ env.submitRes) := by omega
    by_cases hstr : engine.streaming = true
    · rcases hmatch with ⟨hm, hd⟩ | ⟨hm, hd⟩ <;> subst hm <;>
        simp [ioctl_do_submit_transfer, h1, h2, hmode, hd, hbusy, hbuf, hlen,
          hstr, hput, hsr, h3]
    · rcases haddr with hs | ha
      · exact absurd hs hstr
      · obtain ⟨a, ha'⟩ := Option.isSome_iff_exists.mp ha
        rcases hmatch with ⟨hm, hd⟩ | ⟨hm, hd⟩ <;> subst hm <;>
          simp [ioctl_do_submit_transfer, h1, h2, hmode, hd, hbusy, hbuf, hlen,
            hstr, ha', hput, hsr, h3]
  · have h3 : (0 ≤ env.submitRes) := by omega
    by_cases hstr : engine.streaming = true
    · rcases hmatch with ⟨hm, hd⟩ | ⟨hm, hd⟩ <;> subst hm <;>
        simp [ioctl_do_submit_transfer, h1, h2, hmode, hd, hbusy, hbuf, hlen,
          hstr, hput, hsr, h3]
    · rcases haddr with hs | ha
      · exact absurd hs hstr
      · obtain ⟨a, ha'⟩ := Option.isSome_iff_exists.mp ha
        rcases hmatch with ⟨hm, hd⟩ | ⟨hm, hd⟩ <;> subst hm <;>
          simp [ioctl_do_submit_transfer, h1, h2, hmode, hd, hbusy, hbuf, hlen,
            hstr, ha', hput, hsr, h3]

/-- Witness for C9: a fully valid H2C request on a concrete free engine
whose submission returns 64 bytes. -/
theorem submit_writeback_result_witness :
    (ioctl_do_submit_transfer engC2 envC1sub).ret = 0 ∧
    (ioctl_do_submit_transfer engC2 envC1sub).writtenLength = some 64 ∧
    (ioctl_do_submit_transfer engC2 envC1sub).engine.busyBit = false := by
  have h := submit_writeback_result engC2 envC1sub .XDMA_H2C (some 4096) 64
    (by decide) rfl (Or.inl ⟨rfl, rfl⟩) rfl rfl rfl (by decide) (Or.inr rfl) rfl
  exact ⟨(h.1 (by decide)).1, (h.1 (by decide)).2, h.2.2⟩

/-- Claim C6: when a byte-stream read/write's submission returns a
non-negative count on a non-streaming engine not in
non-incrementing-address mode, the position cursor advances by exactly
that count (so two sequential transfers returning n then k bytes leave it
at pos + n + k); streaming engines, non-incrementing-address engines, and
failed submissions leave the cursor unchanged. -/
theorem position_cursor_advance (engine : Engine) (buf : Option Nat)
    (count : Nat) (pos : Int) (submitRes : Int)
    (hbusy : engine.busyBit = false) :
    (engine.streaming = false → engine.non_incr_addr = false →
      0 ≤ submitRes →
      (char_sgdma_read_write engine buf count pos submitRes).pos = pos + submitRes) ∧
    (engine.streaming = true ∨ engine.non_incr_addr = true ∨ submitRes < 0 →
      (char_sgdma_read_write engine buf count pos submitRes).pos = pos) ∧
    (∀ (buf2 : Option Nat) (count2 : Nat) (n k : Int), 0 ≤ n → 0 ≤ k →
      engine.streaming = false → engine.non_incr_addr = false →
      (char_sgdma_read_write
          (char_sgdma_read_write engine buf count pos n).engine
          buf2 count2 (char_sgdma_read_write engine buf count pos n).pos
          k).pos = pos + n + k) := by
  have hfst : ∀ (b : Option Nat) (c : Nat) (p r : Int),
      engine.streaming = false → engine.non_incr_addr = false → 0 ≤ r →
      (char_sgdma_read_write engine b c p r).pos = p + r := by
    intro b c p r hs hn hr
    simp only [char_sgdma_read_write, hbusy]
    simp [hs, hn]
    omega
  refine ⟨fun hs hn hr => hfst buf count pos submitRes hs hn hr, ?_, ?_⟩
  · intro hcase
    simp only [char_sgdma_read_write, hbusy]
    rcases hcase with hs | hn | hr
    · simp [hs]
    · simp [hn]
    · have : ¬0 < submitRes := by omega
      simp [this]
  · intro buf2 count2 n k hn0 hk0 hs hn
    have e1 : (char_sgdma_read_write engine buf count pos n).engine =
        { engine with
          busyBit := false
          transfer_params :=
            { buf := buf, length := count, ep_addr := pos } } := by
      simp [char_sgdma_read_write, hbusy, hs]
    have p1 : (char_sgdma_read_write engine buf count pos n).pos = pos + n :=
      hfst buf count pos n hs hn hn0
    rw [e1, p1]
    have h2 : ({ engine with
          busyBit := false
          transfer_params :=
            { buf := buf, length := count, ep_addr := pos } } : Engine).busyBit
          = false := rfl
    simp only [char_sgdma_read_write, h2]
    simp [hs, hn]
    omega

/-- Witness for C6: a free non-streaming incrementing-address engine,
sequential transfers returning 8 then 8 bytes starting at cursor 0. -/
theorem position_cursor_advance_witness :
    (char_sgdma_read_write engC1 (some 4096) 8 0 8).pos = 0 + 8 ∧
    (char_sgdma_read_write
        (char_sgdma_read_write engC1 (some 4096) 8 0 8).engine
        (some 8192) 8 (char_sgdma_read_write engC1 (some 4096) 8 0 8).pos
        8).pos = 0 + 8 + 8 := by
  have h := position_cursor_advance engC1 (some 4096) 8 0 8 rfl
  exact ⟨h.1 rfl rfl (by decide), h.2.2 (some 8192) 8 8 8 (by decide) (by decide) rfl rfl⟩

/-- Claim C7: opening a device node on a free engine succeeds only when
the declared access mode matches the engine direction (`O_WRONLY` for
HostToDevice, `O_RDONLY` for DeviceToHost); any other access mode fails
with `-EACCES`, with the open bit released before returning (the engine
comes back exactly as it was). -/
theorem open_access_mode_policy (engine : Engine) (filp : Filp)
    (genericOpenRes : Int) (hopen : engine.openBit = false) :
    (engine.dir = .DMA_TO_DEVICE →
      (0 ≤ (char_sgdma_open engine filp genericOpenRes).1 →
        filp.accMode = .O_WRONLY) ∧
      (filp.accMode ≠ .O_WRONLY →
        char_sgdma_open engine filp genericOpenRes = (-EACCES, engine, filp))) ∧
    (engine.dir = .DMA_FROM_DEVICE →
      (0 ≤ (char_sgdma_open engine filp genericOpenRes).1 →
        filp.accMode = .O_RDONLY) ∧
      (filp.accMode ≠ .O_RDONLY →
        char_sgdma_open engine filp genericOpenRes = (-EACCES, engine, filp))) := by
  constructor
  · intro hd
    constructor
    · intro hret
      by_cases hacc : filp.accMode = .O_WRONLY
      · exact hacc
      · rw [show char_sgdma_open engine filp genericOpenRes =
            (-EACCES, { engine with openBit := false }, filp) from by
          simp [char_sgdma_open, hopen, hd, hacc]] at hret
        have hret' : (0 : Int) ≤ -EACCES := hret
        exact absurd hret' (by decide)
    · intro hacc
      cases engine
      simp_all [char_sgdma_open]
  · intro hd
    constructor
    · intro hret
      by_cases hacc : filp.accMode = .O_RDONLY
      · exact hacc
      · rw [show char_sgdma_open engine filp genericOpenRes =
            (-EACCES, { engine with openBit := false }, filp) from by
          simp [char_sgdma_open, hopen, hd, hacc]] at hret
        have hret' : (0 : Int) ≤ -EACCES := hret
        exact absurd hret' (by decide)
    · intro hacc
      cases engine
      simp_all [char_sgdma_open]

/-- A closed HostToDevice non-streaming engine for lifecycle witnesses. -/
def engC7 : Engine :=
  { dir := .DMA_TO_DEVICE, streaming := false, non_incr_addr := false,
    addr_align := 8, busyBit := false, openBit := false,
    transfer_params := { buf := none, length := 0, ep_addr := 0 },
    xdma2_perf := 0, eop_flush := false }

/-- A read-only, no-truncate file description. -/
def filpRdOnly : Filp :=
  { accMode := .O_RDONLY, truncFlag := false, fmodeRead := true, fmodeWrite := true }

/-- Witness for C7: opening a HostToDevice node read-only fails with
`-EACCES` and leaves the engine unchanged (open bit released). -/
theorem open_access_mode_policy_witness :
    char_sgdma_open engC7 filpRdOnly 0 = (-EACCES, engC7, filpRdOnly) :=
  ((open_access_mode_policy engC7 filpRdOnly 0 rfl).1 rfl).2 (by decide)

/-- Claim C8: an open attempted while the engine's open bit is held fails
with `-EBUSY` (AlreadyOpen), a code distinct from the policy-violation
codes `-EACCES`, `-ENOTSUPP` and `-ENOTTY`, and leaves all engine state
(and the file description) unchanged; after a close whose sanity check
passes clears the open bit, a subsequent open with a direction-matching
access mode (and a succeeding `generic_file_open` for non-streaming
engines) returns success. -/
theorem open_already_open_then_reopen (engine : Engine) (filp : Filp)
    (genericOpenRes : Int) (checkRes : Int) :
    (engine.openBit = true →
      char_sgdma_open engine filp genericOpenRes = (-EBUSY, engine, filp) ∧
      (-EBUSY : Int) ≠ -EACCES ∧ (-EBUSY : Int) ≠ -ENOTSUPP ∧
      (-EBUSY : Int) ≠ -ENOTTY) ∧
    (0 ≤ checkRes →
      filp.accMode =
        (if engine.dir = .DMA_TO_DEVICE then AccMode.O_WRONLY else AccMode.O_RDONLY) →
      genericOpenRes = 0 →
      (char_sgdma_open (char_sgdma_close engine checkRes).2 filp
          genericOpenRes).1 = 0) := by
  constructor
  · intro hopen
    refine ⟨by simp [char_sgdma_open, hopen], by decide, by decide, by decide⟩
  · intro hchk hacc hgen
    have hc : ¬checkRes < 0 := by omega
    subst hgen
    rcases hdir : engine.dir with _ | _ <;>
      rw [hdir] at hacc <;> simp at hacc <;>
      cases hstr : engine.streaming <;>
      simp [char_sgdma_close, hc, char_sgdma_open, hdir, hacc, hstr]

/-- A HostToDevice engine whose open bit is currently held. -/
def engC8 : Engine :=
  { dir := .DMA_TO_DEVICE, streaming := false, non_incr_addr := false,
    addr_align := 8, busyBit := false, openBit := true,
    transfer_params := { buf := none, length := 0, ep_addr := 0 },
    xdma2_perf := 0, eop_flush := false }

/-- A write-only, no-truncate file description. -/
def filpWrOnly : Filp :=
  { accMode := .O_WRONLY, truncFlag := false, fmodeRead := true, fmodeWrite := true }

/-- Witness for C8: a second open on the held engine fails with `-EBUSY`
leaving the state untouched; after close, reopening write-only succeeds. -/
theorem open_already_open_then_reopen_witness :
    char_sgdma_open engC8 filpWrOnly 0 = (-EBUSY, engC8, filpWrOnly) ∧
    (char_sgdma_open (char_sgdma_close engC8 0).2 filpWrOnly 0).1 = 0 := by
  have h := open_already_open_then_reopen engC8 filpWrOnly 0 0
  exact ⟨(h.1 rfl).1, h.2 (by decide) (by decide) rfl⟩
